import Mathlib

/-!
Verification of the itroad-backend API gateway resilience machinery.

The definitions below are shallow embeddings of the TypeScript source of the
api-gateway service:
* authMiddleware, userRateLimit      from services/api-gateway/src/middleware/auth.ts
* ServiceDiscovery.checkHealth       from services/api-gateway/src/config/services.ts
* proxyRequest / errorHandler        from services/api-gateway/src/routes/gateway.ts
  (second variant, with the 503 / 504 / 502 mapping, composed with the
  throwing getServiceUrl of config/services.ts it imports)
* ProxyService.proxyRequest          from services/api-gateway/src/services/proxyService.ts
* config / rateLimiter               from services/api-gateway/src/config/environment.ts
                                     and services/api-gateway/src/middleware/rateLimit.ts

Timestamps are naturals (milliseconds).  External effects (token verification,
the identity-service call, health probes, forward attempts) are passed in as
oracle arguments, and each embedded function additionally reports which of
those effects it actually consumed, so that claims about calls not being made
are statable.
-/

/-! ## Authentication middleware (middleware/auth.ts) -/

/-- The five user fields the middleware attaches to a request (interface
AuthRequest.user in middleware/auth.ts). -/
structure UserData where
  userId : String
  email : String
  firstName : String
  lastName : String
  role : String
deriving DecidableEq, Repr

/-- Decoded JWT payload (interface JwtPayload in middleware/auth.ts). -/
structure JwtPayload where
  userId : String
  email : String
  firstName : String
  lastName : String
  role : String
  iat : Option Nat
  exp : Option Nat
deriving DecidableEq, Repr

/-- The user object built from the embedded token claims in the degraded
fallback branch of authMiddleware (userData = decoded fields). -/
def userOfPayload (p : JwtPayload) : UserData :=
  ⟨p.userId, p.email, p.firstName, p.lastName, p.role⟩

/-- One entry of the userCache map: the cached user and its expiry time. -/
structure CacheEntry where
  user : UserData
  expiry : Nat
deriving DecidableEq, Repr

/-- userCache is a Map from cache key to entry; modelled as an association
list looked up by first match. -/
abbrev UserCache := List (String × CacheEntry)

/-- Map.set: replace any binding of the key and insert the new one. -/
def cacheSet (c : UserCache) (k : String) (v : CacheEntry) : UserCache :=
  (k, v) :: c.filter (fun p => p.1 != k)

/-- CACHE_DURATION = 5 * 60 * 1000 in middleware/auth.ts. -/
def CACHE_DURATION : Nat := 5 * 60 * 1000

/-- Outcome of the local jwt.verify call: a decoded payload, a
TokenExpiredError, or a JsonWebTokenError (malformed / bad signature). -/
inductive VerifyResult where
  | ok (payload : JwtPayload)
  | expired
  | malformed
deriving DecidableEq, Repr

/-- Outcome of the axios GET to AUTH_SERVICE_URL/api/auth/me: a resolved
user, an HTTP error response with a status code, or a network-level failure
(service unreachable or timed out, no response object). -/
inductive AuthServiceResult where
  | ok (user : UserData)
  | httpError (status : Nat)
  | networkError
deriving DecidableEq, Repr

/-- What authMiddleware does with the request: reject with an HTTP status
and error code, or attach a user and call next(). -/
inductive AuthOutcome where
  | reject (status : Nat) (error : String)
  | allow (user : UserData)
deriving DecidableEq, Repr

/-- Result of one authMiddleware run: the outcome, the userCache afterwards,
and whether the identity service was called at all. -/
structure AuthResult where
  outcome : AuthOutcome
  cache : UserCache
  svcCalled : Bool
deriving DecidableEq, Repr

/-- JS String.prototype.startsWith: the first p.length characters of h
equal p (spelled out on the underlying character lists so that it
evaluates by kernel reduction). -/
def jsStartsWith (h p : String) : Bool := h.data.take p.length == p.data

/-- The cache-miss path of authMiddleware: call the identity service.
Success caches and returns the resolved user; a 401 response rejects;
any other failure falls back to the embedded token claims without caching. -/
def resolveViaService (cacheKey : String) (payload : JwtPayload) (now : Nat)
    (cache : UserCache) (svc : AuthServiceResult) : AuthResult :=
  match svc with
  | .ok u => ⟨.allow u, cacheSet cache cacheKey ⟨u, now + CACHE_DURATION⟩, true⟩
  | .httpError s =>
      if s = 401 then ⟨.reject 401 "INVALID_TOKEN", cache, true⟩
      else ⟨.allow (userOfPayload payload), cache, true⟩
  | .networkError => ⟨.allow (userOfPayload payload), cache, true⟩

/-- authMiddleware from middleware/auth.ts.  header is the Authorization
header if present; verify is the jwt.verify oracle; svc is the identity
service oracle (consumed only on the cache-miss path). -/
def authMiddleware (header : Option String) (verify : String → VerifyResult)
    (now : Nat) (cache : UserCache) (svc : AuthServiceResult) : AuthResult :=
  match header with
  | none => ⟨.reject 401 "MISSING_TOKEN", cache, false⟩
  | some h =>
      if jsStartsWith h "Bearer " then
        match verify (h.drop 7) with
        | .expired => ⟨.reject 401 "TOKEN_EXPIRED", cache, false⟩
        | .malformed => ⟨.reject 401 "INVALID_TOKEN_FORMAT", cache, false⟩
        | .ok payload =>
            let cacheKey := "user:" ++ payload.userId
            match cache.lookup cacheKey with
            | some entry =>
                if entry.expiry > now then ⟨.allow entry.user, cache, false⟩
                else resolveViaService cacheKey payload now cache svc
            | none => resolveViaService cacheKey payload now cache svc
      else ⟨.reject 401 "MISSING_TOKEN", cache, false⟩

/-- Claim C1: for a locally valid, non-expired token, if the identity call
fails at network level (unreachable or timed out) then authenticate succeeds
with the identity taken from the embedded token claims, while a 401 response
from the identity service rejects the request regardless of those claims. -/
theorem authMiddleware_degraded_fallback (h : String) (verify : String → VerifyResult)
    (now : Nat) (cache : UserCache) (payload : JwtPayload)
    (hstart : jsStartsWith h "Bearer " = true)
    (hver : verify (h.drop 7) = .ok payload)
    (hmiss : ∀ entry, cache.lookup ("user:" ++ payload.userId) = some entry →
      ¬ entry.expiry > now) :
    (authMiddleware (some h) verify now cache .networkError).outcome
        = .allow (userOfPayload payload) ∧
    (authMiddleware (some h) verify now cache (.httpError 401)).outcome
        = .reject 401 "INVALID_TOKEN" := by
  constructor <;>
  · simp only [authMiddleware, hstart, if_true, hver]
    cases hl : cache.lookup ("user:" ++ payload.userId) with
    | none => simp [resolveViaService]
    | some entry => simp [hmiss entry hl, resolveViaService]

/-- Witness for C1 at a concrete request. -/
theorem authMiddleware_degraded_fallback_witness :
    (authMiddleware (some "Bearer tok")
      (fun _ => .ok ⟨"u1", "a@b.c", "A", "B", "client", none, none⟩)
      0 [] .networkError).outcome
        = .allow ⟨"u1", "a@b.c", "A", "B", "client"⟩ ∧
    (authMiddleware (some "Bearer tok")
      (fun _ => .ok ⟨"u1", "a@b.c", "A", "B", "client", none, none⟩)
      0 [] (.httpError 401)).outcome
        = .reject 401 "INVALID_TOKEN" :=
  authMiddleware_degraded_fallback "Bearer tok"
    (fun _ => .ok ⟨"u1", "a@b.c", "A", "B", "client", none, none⟩)
    0 [] ⟨"u1", "a@b.c", "A", "B", "client", none, none⟩
    (by decide) rfl (by intro entry he; simp at he)

/-- Claim C2: a token that fails local verification (bad signature or
expired) is rejected with 401 without any identity-service call and with
the cache untouched, for every identity-service behaviour: the claims
fallback is unreachable for such tokens. -/
theorem authMiddleware_local_verify_rejects (h : String) (verify : String → VerifyResult)
    (now : Nat) (cache : UserCache) (svc : AuthServiceResult)
    (hstart : jsStartsWith h "Bearer " = true) :
    (verify (h.drop 7) = .expired →
      authMiddleware (some h) verify now cache svc
        = ⟨.reject 401 "TOKEN_EXPIRED", cache, false⟩) ∧
    (verify (h.drop 7) = .malformed →
      authMiddleware (some h) verify now cache svc
        = ⟨.reject 401 "INVALID_TOKEN_FORMAT", cache, false⟩) := by
  constructor <;> intro hver <;> simp [authMiddleware, hstart, hver]

/-- Witness for C2 at a concrete expired and a concrete malformed token. -/
theorem authMiddleware_local_verify_rejects_witness :
    authMiddleware (some "Bearer tok") (fun _ => .expired) 5
        [("user:u1", ⟨⟨"u1", "e", "f", "l", "admin"⟩, 99⟩)] .networkError
      = ⟨.reject 401 "TOKEN_EXPIRED",
          [("user:u1", ⟨⟨"u1", "e", "f", "l", "admin"⟩, 99⟩)], false⟩ ∧
    authMiddleware (some "Bearer forged") (fun _ => .malformed) 5
        [("user:u1", ⟨⟨"u1", "e", "f", "l", "admin"⟩, 99⟩)] .networkError
      = ⟨.reject 401 "INVALID_TOKEN_FORMAT",
          [("user:u1", ⟨⟨"u1", "e", "f", "l", "admin"⟩, 99⟩)], false⟩ :=
  ⟨(authMiddleware_local_verify_rejects "Bearer tok" (fun _ => .expired) 5
      [("user:u1", ⟨⟨"u1", "e", "f", "l", "admin"⟩, 99⟩)] .networkError
      (by decide)).1 rfl,
   (authMiddleware_local_verify_rejects "Bearer forged" (fun _ => .malformed) 5
      [("user:u1", ⟨⟨"u1", "e", "f", "l", "admin"⟩, 99⟩)] .networkError
      (by decide)).2 rfl⟩

/-- Claim C6: token expiry is checked before the identity cache: an expired
token is rejected whatever the cache holds, in particular when a fresh
cached identity exists under some key; and a fresh cache hit for a locally
valid token returns the cached identity at once, with no identity-service
call and no cache write, whatever the identity service would have said. -/
theorem authMiddleware_expiry_before_cache (h : String) (verify : String → VerifyResult)
    (now : Nat) (cache : UserCache) (svc : AuthServiceResult)
    (hstart : jsStartsWith h "Bearer " = true) :
    (verify (h.drop 7) = .expired →
      (authMiddleware (some h) verify now cache svc).outcome
        = .reject 401 "TOKEN_EXPIRED") ∧
    (∀ payload entry, verify (h.drop 7) = .ok payload →
      cache.lookup ("user:" ++ payload.userId) = some entry →
      entry.expiry > now →
      authMiddleware (some h) verify now cache svc
        = ⟨.allow entry.user, cache, false⟩) := by
  constructor
  · intro hver
    simp [authMiddleware, hstart, hver]
  · intro payload entry hver hl hfresh
    simp [authMiddleware, hstart, hver, hl, hfresh]

/-- Witness for C6: an expired token is rejected although the cache holds a
fresh identity for subject u1; and with a locally valid token the same
fresh entry is served directly with no service call or cache write. -/
theorem authMiddleware_expiry_before_cache_witness :
    (authMiddleware (some "Bearer tok") (fun _ => .expired) 5
        [("user:u1", ⟨⟨"u1", "e", "f", "l", "admin"⟩, 99⟩)] .networkError).outcome
      = .reject 401 "TOKEN_EXPIRED" ∧
    authMiddleware (some "Bearer tok")
        (fun _ => .ok ⟨"u1", "e", "f", "l", "admin", none, none⟩) 5
        [("user:u1", ⟨⟨"u1", "e2", "f2", "l2", "client"⟩, 99⟩)] .networkError
      = ⟨.allow ⟨"u1", "e2", "f2", "l2", "client"⟩,
          [("user:u1", ⟨⟨"u1", "e2", "f2", "l2", "client"⟩, 99⟩)], false⟩ :=
  ⟨(authMiddleware_expiry_before_cache "Bearer tok" (fun _ => .expired) 5
      [("user:u1", ⟨⟨"u1", "e", "f", "l", "admin"⟩, 99⟩)] .networkError
      (by decide)).1 rfl,
   (authMiddleware_expiry_before_cache "Bearer tok"
      (fun _ => .ok ⟨"u1", "e", "f", "l", "admin", none, none⟩) 5
      [("user:u1", ⟨⟨"u1", "e2", "f2", "l2", "client"⟩, 99⟩)] .networkError
      (by decide)).2
    ⟨"u1", "e", "f", "l", "admin", none, none⟩
    ⟨⟨"u1", "e2", "f2", "l2", "client"⟩, 99⟩ rfl (by decide) (by decide)⟩

/-- Claim C8: whenever the identity service does not confirm an identity
(degraded fallback on network failure, and every HTTP-error answer), the
user cache after authMiddleware is exactly the cache before it: only
service-confirmed identities are ever written to the cache. -/
theorem authMiddleware_no_cache_on_failure (header : Option String)
    (verify : String → VerifyResult) (now : Nat) (cache : UserCache)
    (svc : AuthServiceResult) (hfail : ∀ u, svc ≠ .ok u) :
    (authMiddleware header verify now cache svc).cache = cache := by
  match header with
  | none => simp [authMiddleware]
  | some h =>
    simp only [authMiddleware]
    by_cases hstart : jsStartsWith h "Bearer " = true
    · simp only [hstart, if_true]
      cases hver : verify (h.drop 7) with
      | expired => rfl
      | malformed => rfl
      | ok payload =>
        simp only
        have hres : ∀ k, (resolveViaService k payload now cache svc).cache = cache := by
          intro k
          cases svc with
          | ok u => exact absurd rfl (hfail u)
          | httpError s =>
            simp only [resolveViaService]
            by_cases h401 : s = 401 <;> simp [h401]
          | networkError => rfl
        cases hl : cache.lookup ("user:" ++ payload.userId) with
        | none => exact hres _
        | some entry =>
          by_cases hfresh : entry.expiry > now
          · simp [hfresh]
          · simp only [hfresh, if_false]
            exact hres _
    · simp [hstart]

/-- Witness for C8: a degraded (network-failure) authentication leaves the
cache unchanged. -/
theorem authMiddleware_no_cache_on_failure_witness :
    (authMiddleware (some "Bearer tok")
      (fun _ => .ok ⟨"u1", "a@b.c", "A", "B", "client", none, none⟩)
      0 [] .networkError).cache = [] :=
  authMiddleware_no_cache_on_failure (some "Bearer tok")
    (fun _ => .ok ⟨"u1", "a@b.c", "A", "B", "client", none, none⟩)
    0 [] .networkError (by intro u hu; cases hu)

/-- Claim C10: on the cache-miss path, every identity-service failure whose
HTTP status is not 401 - 403 and 5xx responses included - takes the
embedded-claims fallback, while exactly the 401 response rejects. -/
theorem authMiddleware_non401_fallback (h : String) (verify : String → VerifyResult)
    (now : Nat) (cache : UserCache) (payload : JwtPayload) (s : Nat)
    (hstart : jsStartsWith h "Bearer " = true)
    (hver : verify (h.drop 7) = .ok payload)
    (hmiss : ∀ entry, cache.lookup ("user:" ++ payload.userId) = some entry →
      ¬ entry.expiry > now) :
    (s ≠ 401 →
      authMiddleware (some h) verify now cache (.httpError s)
        = ⟨.allow (userOfPayload payload), cache, true⟩) ∧
    (s = 401 →
      authMiddleware (some h) verify now cache (.httpError s)
        = ⟨.reject 401 "INVALID_TOKEN", cache, true⟩) := by
  have hbranch : authMiddleware (some h) verify now cache (.httpError s)
      = resolveViaService ("user:" ++ payload.userId) payload now cache (.httpError s) := by
    simp only [authMiddleware, hstart, if_true, hver]
    cases hl : cache.lookup ("user:" ++ payload.userId) with
    | none => rfl
    | some entry => simp [hmiss entry hl]
  constructor <;> intro hs <;> rw [hbranch] <;> simp [resolveViaService, hs]

/-- Witness for C10: a 403 answer from the identity service takes the
embedded-claims fallback, a 500 answer does too, and a 401 answer rejects. -/
theorem authMiddleware_non401_fallback_witness :
    authMiddleware (some "Bearer tok")
        (fun _ => .ok ⟨"u1", "a@b.c", "A", "B", "client", none, none⟩)
        0 [] (.httpError 403)
      = ⟨.allow ⟨"u1", "a@b.c", "A", "B", "client"⟩, [], true⟩ ∧
    authMiddleware (some "Bearer tok")
        (fun _ => .ok ⟨"u1", "a@b.c", "A", "B", "client", none, none⟩)
        0 [] (.httpError 500)
      = ⟨.allow ⟨"u1", "a@b.c", "A", "B", "client"⟩, [], true⟩ ∧
    authMiddleware (some "Bearer tok")
        (fun _ => .ok ⟨"u1", "a@b.c", "A", "B", "client", none, none⟩)
        0 [] (.httpError 401)
      = ⟨.reject 401 "INVALID_TOKEN", [], true⟩ :=
  ⟨(authMiddleware_non401_fallback "Bearer tok"
      (fun _ => .ok ⟨"u1", "a@b.c", "A", "B", "client", none, none⟩)
      0 [] ⟨"u1", "a@b.c", "A", "B", "client", none, none⟩ 403
      (by decide) rfl (by intro entry he; simp at he)).1 (by decide),
   (authMiddleware_non401_fallback "Bearer tok"
      (fun _ => .ok ⟨"u1", "a@b.c", "A", "B", "client", none, none⟩)
      0 [] ⟨"u1", "a@b.c", "A", "B", "client", none, none⟩ 500
      (by decide) rfl (by intro entry he; simp at he)).1 (by decide),
   (authMiddleware_non401_fallback "Bearer tok"
      (fun _ => .ok ⟨"u1", "a@b.c", "A", "B", "client", none, none⟩)
      0 [] ⟨"u1", "a@b.c", "A", "B", "client", none, none⟩ 401
      (by decide) rfl (by intro entry he; simp at he)).2 rfl⟩

/-! ## Service discovery health cache (config/services.ts) -/

/-- One healthCache entry of ServiceDiscovery: last observed status and the
time it was recorded. -/
structure HealthRecord where
  status : Bool
  lastCheck : Nat
deriving DecidableEq, Repr

/-- CACHE_TTL = 30000 in config/services.ts. -/
def HEALTH_CACHE_TTL : Nat := 30000

/-- Outcome of the fetch against the health endpoint: an HTTP response with
a status code, or a thrown failure (timeout via abort, connection error). -/
inductive ProbeOutcome where
  | response (status : Nat)
  | failure
deriving DecidableEq, Repr

/-- Result of one checkHealth call: the returned boolean, the cache entry
for the service afterwards, and how many network probes were issued. -/
structure HealthCheckResult where
  healthy : Bool
  cache : Option HealthRecord
  probes : Nat
deriving DecidableEq, Repr

/-- response.ok of the fetch API: status in the range 200..299. -/
def responseOk (s : Nat) : Bool := decide (200 ≤ s ∧ s < 300)

/-- The probe half of checkHealth: fetch the health endpoint, record the
decision in a fresh cache entry whatever the outcome. -/
def runProbe (now : Nat) (probe : ProbeOutcome) : HealthCheckResult :=
  match probe with
  | .response s => ⟨responseOk s, some ⟨responseOk s, now⟩, 1⟩
  | .failure => ⟨false, some ⟨false, now⟩, 1⟩

/-- ServiceDiscovery.checkHealth from config/services.ts, for a registered
service: serve a cached record younger than the TTL without probing,
otherwise probe once and overwrite the cache. -/
def checkHealth (cached : Option HealthRecord) (now : Nat)
    (probe : ProbeOutcome) : HealthCheckResult :=
  match cached with
  | some c =>
      if now - c.lastCheck < HEALTH_CACHE_TTL then ⟨c.status, some c, 0⟩
      else runProbe now probe
  | none => runProbe now probe

/-- Claim C3: a cached record younger than the 30 s TTL is served with zero
probes and an unchanged cache; once the TTL has elapsed (or with no record)
exactly one probe is issued, whose decision - healthy exactly on a 2xx
response, unhealthy on a non-2xx response and on timeout or connection
failure - is written to the cache regardless of outcome. -/
theorem checkHealth_ttl_probe (now : Nat) (c : HealthRecord) (probe : ProbeOutcome) :
    (now - c.lastCheck < 30000 →
      checkHealth (some c) now probe = ⟨c.status, some c, 0⟩) ∧
    (30000 ≤ now - c.lastCheck →
      checkHealth (some c) now probe = runProbe now probe) ∧
    (checkHealth none now probe = runProbe now probe) ∧
    (∀ s, runProbe now (.response s)
      = ⟨decide (200 ≤ s ∧ s < 300), some ⟨decide (200 ≤ s ∧ s < 300), now⟩, 1⟩) ∧
    (runProbe now .failure = ⟨false, some ⟨false, now⟩, 1⟩) := by
  refine ⟨fun hfresh => ?_, fun hstale => ?_, rfl, fun s => rfl, rfl⟩
  · simp [checkHealth, HEALTH_CACHE_TTL, hfresh]
  · simp [checkHealth, HEALTH_CACHE_TTL, Nat.not_lt.mpr hstale]

/-- Witness for C3: a 20 s old healthy record is reused with no probe even
though the probe oracle would report a 500; a 40 s old record is refreshed
by one probe, and a failed probe is cached as unhealthy. -/
theorem checkHealth_ttl_probe_witness :
    checkHealth (some ⟨true, 0⟩) 20000 (.response 500) = ⟨true, some ⟨true, 0⟩, 0⟩ ∧
    checkHealth (some ⟨true, 0⟩) 40000 (.response 500)
      = ⟨false, some ⟨false, 40000⟩, 1⟩ ∧
    checkHealth (some ⟨true, 10000⟩) 50000 .failure
      = ⟨false, some ⟨false, 50000⟩, 1⟩ ∧
    checkHealth none 7 (.response 204) = ⟨true, some ⟨true, 7⟩, 1⟩ :=
  ⟨(checkHealth_ttl_probe 20000 ⟨true, 0⟩ (.response 500)).1 (by decide),
   ((checkHealth_ttl_probe 40000 ⟨true, 0⟩ (.response 500)).2.1 (by decide)).trans
     (by decide),
   ((checkHealth_ttl_probe 50000 ⟨true, 10000⟩ .failure).2.1 (by decide)).trans
     (by decide),
   ((checkHealth_ttl_probe 7 ⟨true, 0⟩ (.response 204)).2.2.1).trans (by decide)⟩

/-! ## Request proxying (routes/gateway.ts, second variant) -/

/-- Static service registry from config/services.ts: name, base url, health
endpoint, timeout per service. -/
structure ServiceConfig where
  name : String
  url : String
  healthEndpoint : String
  timeout : Nat
deriving DecidableEq, Repr

/-- The services table of config/services.ts with the default environment
urls. -/
def services : List (String × ServiceConfig) :=
  [("auth", ⟨"auth-service", "http://localhost:3001", "/api/auth/health", 5000⟩),
   ("profile", ⟨"profile-service", "http://localhost:3002", "/api/profile/health", 5000⟩),
   ("property", ⟨"property-service", "http://localhost:3003", "/api/properties/health", 5000⟩),
   ("document", ⟨"document-service", "http://localhost:3004", "/api/documents/health", 10000⟩),
   ("transaction", ⟨"transaction-service", "http://localhost:3005", "/api/transactions/health", 5000⟩)]

/-- AppError from middleware/errorHandler.ts. -/
structure AppError where
  message : String
  statusCode : Option Nat
  isOperational : Bool
deriving DecidableEq, Repr

/-- createError from middleware/errorHandler.ts. -/
def createError (message : String) (statusCode : Nat) : AppError :=
  ⟨message, some statusCode, true⟩

/-- errorHandler from middleware/errorHandler.ts: the response status is the
statusCode of the error, 500 when absent. -/
def errorHandlerStatus (e : AppError) : Nat := e.statusCode.getD 500

/-- ServiceDiscovery.getServiceUrl from config/services.ts (the copy that
also defines the checkHealth used by proxyRequest): it returns the base url
of a registered service and THROWS for an unknown name - a plain Error
carrying no statusCode and no isOperational flag, not a createError. -/
def getServiceUrl (serviceName : String) : Except AppError String :=
  match services.lookup serviceName with
  | some s => .ok s.url
  | none => .error ⟨"Service " ++ serviceName ++ " not found", none, false⟩

/-- Outcome of the forward fetch to the target service: a downstream
response with its status, an AbortError (the 30 s gateway timeout fired),
or any other thrown failure (connection error). -/
inductive ForwardOutcome where
  | response (status : Nat)
  | abortError
  | connectionError
deriving DecidableEq, Repr

/-- The try/catch around the forward fetch in proxyRequest of
routes/gateway.ts: a response has its status relayed verbatim; an
AbortError becomes createError 504; any other failure becomes
createError 502. -/
def forwardResult (serviceName : String) (fwd : ForwardOutcome) : Except AppError Nat :=
  match fwd with
  | .response s => .ok s
  | .abortError => .error (createError ("Request to " ++ serviceName ++ " timed out") 504)
  | .connectionError =>
      .error (createError ("Failed to proxy request to " ++ serviceName) 502)

/-- proxyRequest from routes/gateway.ts (second variant): getServiceUrl is
called first and its throw for an unknown name propagates (through
asyncHandler) to the errorHandler; the body then null-checks the returned
url (in JS only the empty string is falsy here) and would throw
createError 404, a branch that is dead because getServiceUrl throws
instead of returning null and every registered url is non-empty; an
unhealthy health check throws createError 503; otherwise the request is
forwarded. -/
def proxyRequest (serviceName : String) (hc : Option HealthRecord) (now : Nat)
    (probe : ProbeOutcome) (fwd : ForwardOutcome) : Except AppError Nat :=
  match getServiceUrl serviceName with
  | .error e => .error e
  | .ok url =>
      if url = "" then
        .error (createError ("Service " ++ serviceName ++ " not found") 404)
      else if (checkHealth hc now probe).healthy then forwardResult serviceName fwd
      else .error (createError ("Service " ++ serviceName ++ " is unavailable") 503)

/-- What the caller sees: the relayed downstream status for a success, the
errorHandler status for a thrown error. -/
def gatewayStatus (r : Except AppError Nat) : Nat :=
  match r with
  | .ok s => s
  | .error e => errorHandlerStatus e

/-- Claim C4 evaluated at its failing input: a request naming the
unregistered service search reaches the errorHandler with the plain
not-found Error thrown by getServiceUrl, which has no statusCode, so the
caller sees 500 and not a 404-class response - the in-function 404 branch
is dead.  The remaining mappings are as claimed: registered-but-unhealthy
yields the 503 gateway error (and no unknown name ever does), a healthy
forward preserves the downstream status verbatim, a timeout maps to 504
and a connection failure to 502. -/
theorem proxyRequest_unknown_name_500 :
    proxyRequest "search" (some ⟨true, 0⟩) 5 (.response 200) (.response 200)
      = .error ⟨"Service search not found", none, false⟩ ∧
    gatewayStatus (proxyRequest "search" (some ⟨true, 0⟩) 5 (.response 200)
      (.response 200)) = 500 ∧
    proxyRequest "auth" (some ⟨false, 0⟩) 5 (.response 200) (.response 200)
      = .error (createError "Service auth is unavailable" 503) ∧
    proxyRequest "auth" (some ⟨true, 0⟩) 5 (.response 200) (.response 418)
      = .ok 418 ∧
    gatewayStatus (proxyRequest "auth" (some ⟨true, 0⟩) 5 (.response 200)
      .abortError) = 504 ∧
    gatewayStatus (proxyRequest "auth" (some ⟨true, 0⟩) 5 (.response 200)
      .connectionError) = 502 ∧
    gatewayStatus (proxyRequest "search" (some ⟨false, 0⟩) 5 (.response 200)
      (.response 200)) ≠ 503 := by
  refine ⟨rfl, by decide, rfl, rfl, by decide, by decide, by decide⟩

/-! ## Retrying proxy executor (services/proxyService.ts) -/

/-- Failure class of one thrown makeProxyRequest error: the timeout signal
fired, the connection was refused, or any other thrown error - for example
a SyntaxError from response.json() on an unparsable body.  Every throw
point of makeProxyRequest (fetch itself, reading the response body,
setting headers) precedes the res.json / res.send calls that write the
response, and once those write, the attempt returns successfully; so a
thrown failure never has response bytes already written. -/
inductive FailKind where
  | timeout
  | connRefused
  | other
deriving DecidableEq, Repr

/-- Outcome of one makeProxyRequest attempt: it completed (the downstream
response was relayed to the caller), or it threw with the given failure
class (before any response byte was written, see FailKind). -/
inductive AttemptResult where
  | success (status : Nat)
  | failed (kind : FailKind)
deriving DecidableEq, Repr

/-- How the retry loop of ProxyService.proxyRequest ended. -/
inductive LoopResult where
  | completed (status : Nat)
  | exhausted
deriving DecidableEq, Repr

/-- Observable trace of one run of the retry loop: how many attempts were
issued, the total delay slept between attempts, the failure classes after
which a retry was issued (in order), and how the loop ended. -/
structure ExecTrace where
  attempts : Nat
  delayTotal : Nat
  retriedOn : List FailKind
  result : LoopResult
deriving DecidableEq, Repr

/-- DEFAULT_RETRIES = 2 in proxyService.ts. -/
def DEFAULT_RETRIES : Nat := 2

/-- DEFAULT_RETRY_DELAY = 1000 in proxyService.ts. -/
def DEFAULT_RETRY_DELAY : Nat := 1000

/-- The for-loop of ProxyService.proxyRequest.  att gives the outcome of
each attempt; remaining counts the attempts still allowed including the
current one (remaining = retries + 1 - attempt), so remaining = 1 means
attempt = retries, the case where the loop exits after a failure without
delaying.  The catch block retries after every thrown failure while
attempts remain, sleeping retryDelay first; it does not inspect the
failure class. -/
def retryLoopGo (att : Nat → AttemptResult) (retryDelay : Nat) :
    Nat → Nat → ExecTrace
  | _, 0 => ⟨0, 0, [], .exhausted⟩
  | attempt, 1 =>
      match att attempt with
      | .success s => ⟨1, 0, [], .completed s⟩
      | .failed _ => ⟨1, 0, [], .exhausted⟩
  | attempt, remaining+2 =>
      match att attempt with
      | .success s => ⟨1, 0, [], .completed s⟩
      | .failed k =>
          let rest := retryLoopGo att retryDelay (attempt+1) (remaining+1)
          ⟨rest.attempts + 1, retryDelay + rest.delayTotal, k :: rest.retriedOn,
            rest.result⟩

/-- ProxyService.proxyRequest retry phase with the given retries and
retryDelay settings, starting at attempt 0. -/
def proxyRetryLoop (att : Nat → AttemptResult) (retries retryDelay : Nat) : ExecTrace :=
  retryLoopGo att retryDelay 0 (retries + 1)

/-- The reply after the loop: the relayed downstream response on success.
After exhaustion the code sends the 502 reply unless res.headersSent; a
thrown attempt never writes before throwing (see FailKind), so headersSent
is false there and the 502 reply is always sent. -/
def finalReply (t : ExecTrace) : Option Nat :=
  match t.result with
  | .completed s => some s
  | .exhausted => some 502

/-- A realizable attempt oracle: the first forward receives a 200 response
whose body fails to parse, so makeProxyRequest throws a response-processing
error (class other) with nothing written to the caller; the second attempt
completes with a 200. -/
def attemptOtherThenOk : Nat → AttemptResult :=
  fun i => if i = 0 then .failed .other else .success 200

/-- Counterexample to claim C5 as stated: the executor retries (a second
attempt is issued after a 1000 ms delay) although the failed attempt threw
a response-processing error, a failure class that is neither a timeout nor
a refused connection - the loop retries on every thrown failure class, not
only the idempotent-safe ones. -/
theorem proxyRetry_nonidempotent_class_cex :
    (proxyRetryLoop attemptOtherThenOk DEFAULT_RETRIES DEFAULT_RETRY_DELAY).retriedOn
      = [.other] ∧
    (proxyRetryLoop attemptOtherThenOk DEFAULT_RETRIES DEFAULT_RETRY_DELAY).attempts
      = 2 ∧
    (proxyRetryLoop attemptOtherThenOk DEFAULT_RETRIES DEFAULT_RETRY_DELAY).delayTotal
      = 1000 ∧
    attemptOtherThenOk 0 = .failed .other ∧
    FailKind.other ≠ .timeout ∧ FailKind.other ≠ .connRefused := by
  refine ⟨rfl, rfl, rfl, rfl, by decide, by decide⟩

/-- Claim C5 as amended: the executor makes at most 3 attempts (2 retries)
with a fixed 1000 ms delay between consecutive attempts, making exactly 3
and surfacing the 502 reply when every attempt fails; it retries after
every thrown failure class, response-processing errors included, not only
connection-refused and timeout; and since every throw point of
makeProxyRequest precedes any response write, a failed attempt has written
nothing, so no retry ever follows a partial write. -/
theorem proxyRetry_bounded_retry (att : Nat → AttemptResult) :
    (proxyRetryLoop att DEFAULT_RETRIES DEFAULT_RETRY_DELAY).attempts ≤ 3 ∧
    (proxyRetryLoop att DEFAULT_RETRIES DEFAULT_RETRY_DELAY).delayTotal
      = ((proxyRetryLoop att DEFAULT_RETRIES DEFAULT_RETRY_DELAY).attempts - 1) * 1000 ∧
    ((∀ i, i < 3 → ∃ k, att i = .failed k) →
      (proxyRetryLoop att DEFAULT_RETRIES DEFAULT_RETRY_DELAY).attempts = 3 ∧
      (proxyRetryLoop att DEFAULT_RETRIES DEFAULT_RETRY_DELAY).result = .exhausted ∧
      finalReply (proxyRetryLoop att DEFAULT_RETRIES DEFAULT_RETRY_DELAY) = some 502) ∧
    (∀ k, att 0 = .failed k →
      2 ≤ (proxyRetryLoop att DEFAULT_RETRIES DEFAULT_RETRY_DELAY).attempts) ∧
    (∀ s, att 0 = .success s →
      (proxyRetryLoop att DEFAULT_RETRIES DEFAULT_RETRY_DELAY).attempts = 1 ∧
      (proxyRetryLoop att DEFAULT_RETRIES DEFAULT_RETRY_DELAY).result
        = .completed s) := by
  have hunfold : proxyRetryLoop att DEFAULT_RETRIES DEFAULT_RETRY_DELAY
      = retryLoopGo att 1000 0 3 := rfl
  rw [hunfold]
  cases h0 : att 0 with
  | success s0 =>
    refine ⟨?_, ?_, ?_, ?_, ?_⟩
    · simp [retryLoopGo, h0]
    · simp [retryLoopGo, h0]
    · intro hall
      obtain ⟨k, hk⟩ := hall 0 (by omega)
      rw [h0] at hk
      cases hk
    · intro k hk
      cases hk
    · intro s hs
      injection hs with hss
      subst hss
      simp [retryLoopGo, h0]
  | failed k0 =>
    cases h1 : att 1 with
    | success s1 =>
      refine ⟨?_, ?_, ?_, ?_, ?_⟩
      · simp [retryLoopGo, h0, h1]
      · simp [retryLoopGo, h0, h1]
      · intro hall
        obtain ⟨k, hk⟩ := hall 1 (by omega)
        rw [h1] at hk
        cases hk
      · intro k hk
        simp [retryLoopGo, h0, h1]
      · intro s hs
        cases hs
    | failed k1 =>
      cases h2 : att 2 with
      | success s2 =>
        refine ⟨?_, ?_, ?_, ?_, ?_⟩
        · simp [retryLoopGo, h0, h1, h2]
        · simp [retryLoopGo, h0, h1, h2]
        · intro hall
          obtain ⟨k, hk⟩ := hall 2 (by omega)
          rw [h2] at hk
          cases hk
        · intro k hk
          simp [retryLoopGo, h0, h1, h2]
        · intro s hs
          cases hs
      | failed k2 =>
        refine ⟨?_, ?_, ?_, ?_, ?_⟩
        · simp [retryLoopGo, h0, h1, h2]
        · simp [retryLoopGo, h0, h1, h2]
        · intro hall
          simp [retryLoopGo, h0, h1, h2, finalReply]
        · intro k hk
          simp [retryLoopGo, h0, h1, h2]
        · intro s hs
          cases hs

/-- Witness for C5 amended: with every attempt timing out there are 3
attempts, 2000 ms total delay and the 502 reply; with a first-attempt
success there is 1 attempt relaying the 200. -/
theorem proxyRetry_bounded_retry_witness :
    (proxyRetryLoop (fun _ => .failed .timeout)
      DEFAULT_RETRIES DEFAULT_RETRY_DELAY).attempts ≤ 3 ∧
    (proxyRetryLoop (fun _ => .failed .timeout)
        DEFAULT_RETRIES DEFAULT_RETRY_DELAY).delayTotal
      = ((proxyRetryLoop (fun _ => .failed .timeout)
          DEFAULT_RETRIES DEFAULT_RETRY_DELAY).attempts - 1) * 1000 ∧
    (proxyRetryLoop (fun _ => .failed .timeout)
      DEFAULT_RETRIES DEFAULT_RETRY_DELAY).attempts = 3 ∧
    finalReply (proxyRetryLoop (fun _ => .failed .timeout)
      DEFAULT_RETRIES DEFAULT_RETRY_DELAY) = some 502 ∧
    2 ≤ (proxyRetryLoop (fun _ => .failed .timeout)
      DEFAULT_RETRIES DEFAULT_RETRY_DELAY).attempts ∧
    (proxyRetryLoop (fun _ => .success 200)
      DEFAULT_RETRIES DEFAULT_RETRY_DELAY).attempts = 1 :=
  ⟨(proxyRetry_bounded_retry (fun _ => .failed .timeout)).1,
   (proxyRetry_bounded_retry (fun _ => .failed .timeout)).2.1,
   ((proxyRetry_bounded_retry (fun _ => .failed .timeout)).2.2.1
      (fun _ _ => ⟨.timeout, rfl⟩)).1,
   ((proxyRetry_bounded_retry (fun _ => .failed .timeout)).2.2.1
      (fun _ _ => ⟨.timeout, rfl⟩)).2.2,
   (proxyRetry_bounded_retry (fun _ => .failed .timeout)).2.2.2.1 .timeout rfl,
   ((proxyRetry_bounded_retry (fun _ => .success 200)).2.2.2.2 200 rfl).1⟩

/-! ## Per-user rate limiter (userRateLimit in middleware/auth.ts) -/

/-- One userRateLimits entry: request count and window reset time. -/
structure RateEntry where
  count : Nat
  resetTime : Nat
deriving DecidableEq, Repr

/-- Response of one pass through the userRateLimit middleware: the request
goes through, or it is answered with an HTTP status and a retry-after hint
in seconds. -/
inductive RateOutcome where
  | allowed
  | rejected (status : Nat) (retryAfter : Nat)
deriving DecidableEq, Repr

/-- One request through userRateLimit from middleware/auth.ts for one
identifier: no entry or an elapsed window starts a fresh window with count
1 and allows; else a count at or above the ceiling rejects with 429 and
retryAfter = ceil of (resetTime - now) in seconds, leaving the entry
unchanged; otherwise the count is incremented and the request allowed. -/
def userRateLimit (maxRequests windowMs now : Nat) (entry : Option RateEntry) :
    RateOutcome × RateEntry :=
  match entry with
  | none => (.allowed, ⟨1, now + windowMs⟩)
  | some e =>
      if now > e.resetTime then (.allowed, ⟨1, now + windowMs⟩)
      else if e.count ≥ maxRequests then
        (.rejected 429 ((e.resetTime - now + 999) / 1000), e)
      else (.allowed, ⟨e.count + 1, e.resetTime⟩)

/-- A sequence of requests at the given times through userRateLimit,
threading the stored entry; returns the outcomes and the final entry. -/
def runRateLimit (maxRequests windowMs : Nat) :
    List Nat → Option RateEntry → List RateOutcome × Option RateEntry
  | [], entry => ([], entry)
  | t :: ts, entry =>
      let step := userRateLimit maxRequests windowMs t entry
      let rest := runRateLimit maxRequests windowMs ts (some step.2)
      (step.1 :: rest.1, rest.2)

/-- runRateLimit splits over list append. -/
theorem runRateLimit_append (maxRequests windowMs : Nat) (l1 l2 : List Nat) :
    ∀ s, runRateLimit maxRequests windowMs (l1 ++ l2) s
      = ((runRateLimit maxRequests windowMs l1 s).1
          ++ (runRateLimit maxRequests windowMs l2
              (runRateLimit maxRequests windowMs l1 s).2).1,
         (runRateLimit maxRequests windowMs l2
            (runRateLimit maxRequests windowMs l1 s).2).2) := by
  induction l1 with
  | nil => intro s; simp [runRateLimit]
  | cons x xs ih =>
    intro s
    simp only [List.cons_append, runRateLimit, List.append_eq]
    rw [ih]

/-- Within an open window at time t, k further same-time requests starting
from count c all pass while c + k stays at or below the ceiling, and the
count advances to c + k. -/
theorem runRateLimit_replicate (maxRequests windowMs t : Nat) :
    ∀ k c, 1 ≤ c → c + k ≤ maxRequests →
    runRateLimit maxRequests windowMs (List.replicate k t) (some ⟨c, t + windowMs⟩)
      = (List.replicate k .allowed, some ⟨c + k, t + windowMs⟩) := by
  intro k
  induction k with
  | zero => intro c _ _; simp [runRateLimit]
  | succ n ih =>
    intro c hc hck
    have hnot : ¬ t > t + windowMs := by omega
    have hlt : ¬ c ≥ maxRequests := by omega
    simp only [List.replicate_succ, runRateLimit, userRateLimit, hnot, if_false,
      hlt, if_true]
    rw [ih (c + 1) (by omega) (by omega)]
    have hn : c + 1 + n = c + (n + 1) := by omega
    rw [hn]

/-- Claim C7: a request with no window or an elapsed window starts a new
window with count 1 and is allowed; a same-window request below the ceiling
increments the count; with the ceiling reached, requests are answered 429
with the retry-after hint and the entry untouched, so, from empty, requests
1..N of a window pass and request N+1 is the first rejected; a later
request after the window elapses resets the count to 1; and the stored
count never exceeds the ceiling. -/
theorem userRateLimit_window (maxRequests windowMs t u : Nat)
    (hmax : 1 ≤ maxRequests) (hu : t + windowMs < u) :
    (userRateLimit maxRequests windowMs t none = (.allowed, ⟨1, t + windowMs⟩)) ∧
    (∀ e : RateEntry, t > e.resetTime →
      userRateLimit maxRequests windowMs t (some e) = (.allowed, ⟨1, t + windowMs⟩)) ∧
    (∀ e : RateEntry, ¬ t > e.resetTime → e.count < maxRequests →
      userRateLimit maxRequests windowMs t (some e)
        = (.allowed, ⟨e.count + 1, e.resetTime⟩)) ∧
    (∀ e : RateEntry, ¬ t > e.resetTime → e.count ≥ maxRequests →
      userRateLimit maxRequests windowMs t (some e)
        = (.rejected 429 ((e.resetTime - t + 999) / 1000), e)) ∧
    ((runRateLimit maxRequests windowMs (List.replicate (maxRequests + 1) t) none).1
      = List.replicate maxRequests .allowed
          ++ [.rejected 429 ((windowMs + 999) / 1000)]) ∧
    ((runRateLimit maxRequests windowMs
        (List.replicate (maxRequests + 1) t ++ [u]) none).2
      = some ⟨1, u + windowMs⟩) ∧
    (∀ e : RateEntry, e.count ≤ maxRequests →
      (userRateLimit maxRequests windowMs t (some e)).2.count ≤ maxRequests) := by
  have hnot : ¬ t > t + windowMs := by omega
  have hfull :
      runRateLimit maxRequests windowMs (List.replicate (maxRequests + 1) t) none
        = (List.replicate maxRequests .allowed
            ++ [.rejected 429 ((windowMs + 999) / 1000)],
           some ⟨maxRequests, t + windowMs⟩) := by
    obtain ⟨m, hm⟩ : ∃ m, maxRequests = m + 1 := ⟨maxRequests - 1, by omega⟩
    subst hm
    have hsplit : List.replicate (m + 1 + 1) t
        = t :: (List.replicate m t ++ [t]) := by
      rw [List.replicate_succ]
      congr 1
      simpa using List.replicate_succ' m t
    have h1 : userRateLimit (m + 1) windowMs t none
        = (.allowed, ⟨1, t + windowMs⟩) := rfl
    rw [hsplit]
    simp only [runRateLimit, h1]
    rw [runRateLimit_append]
    rw [runRateLimit_replicate (m + 1) windowMs t m 1 (by omega) (by omega)]
    have hrej : userRateLimit (m + 1) windowMs t (some ⟨1 + m, t + windowMs⟩)
        = (.rejected 429 ((windowMs + 999) / 1000), ⟨1 + m, t + windowMs⟩) := by
      have hge : (1 + m : Nat) ≥ m + 1 := by omega
      have hw : t + windowMs - t = windowMs := by omega
      simp only [userRateLimit, hnot, if_false, hge, if_true, hw]
    simp only [runRateLimit, hrej]
    have h1m : 1 + m = m + 1 := by omega
    rw [h1m]
    simp [List.replicate_succ]
  refine ⟨rfl, ?_, ?_, ?_, ?_, ?_, ?_⟩
  · intro e he
    simp [userRateLimit, he]
  · intro e he hlt
    simp [userRateLimit, he, Nat.not_le.mpr hlt]
  · intro e he hge
    simp [userRateLimit, he, hge]
  · rw [hfull]
  · rw [runRateLimit_append, hfull]
    simp [runRateLimit, userRateLimit, hu]
  · intro e hec
    by_cases h1 : t > e.resetTime
    · simp [userRateLimit, h1]
      omega
    · by_cases h2 : e.count ≥ maxRequests
      · simp [userRateLimit, h1, h2]
        omega
      · simp [userRateLimit, h1, h2]
        omega

/-- Witness for C7 with ceiling 3, window 60000 ms: four same-instant
requests from empty give allowed, allowed, allowed, rejected 429 with a
60 s retry hint, and a request after the window resets the count to 1. -/
theorem userRateLimit_window_witness :
    userRateLimit 3 60000 100 none = (.allowed, ⟨1, 60100⟩) ∧
    (runRateLimit 3 60000 (List.replicate 4 100) none).1
      = List.replicate 3 .allowed ++ [.rejected 429 60] ∧
    (runRateLimit 3 60000 (List.replicate 4 100 ++ [70000]) none).2
      = some ⟨1, 130000⟩ :=
  ⟨(userRateLimit_window 3 60000 100 70000 (by decide) (by decide)).1,
   by
    have h := (userRateLimit_window 3 60000 100 70000 (by decide)
      (by decide)).2.2.2.2.1
    simpa using h,
   by
    have h := (userRateLimit_window 3 60000 100 70000 (by decide)
      (by decide)).2.2.2.2.2.1
    simpa using h⟩

/-! ## Gateway configuration (config/environment.ts, middleware/rateLimit.ts) -/

/-- JS parseInt on a decimal string: a number on success, none for NaN
(spelled out on the character list so that it evaluates by kernel
reduction). -/
def parseIntJS (s : String) : Option Nat :=
  if s.data ≠ [] ∧ s.data.all (fun c => c.isDigit) then
    some (s.data.foldl (fun acc c => acc * 10 + (c.toNat - 48)) 0)
  else none

/-- The config object exported by config/environment.ts: twelve flat keys,
each defaulted when the environment variable is absent. -/
structure GatewayConfig where
  PORT : Option Nat
  NODE_ENV : String
  JWT_SECRET : String
  AUTH_SERVICE_URL : String
  PROFILE_SERVICE_URL : String
  PROPERTY_SERVICE_URL : String
  DOCUMENT_SERVICE_URL : String
  TRANSACTION_SERVICE_URL : String
  RATE_LIMIT_WINDOW : Option Nat
  RATE_LIMIT_MAX : Option Nat
  CORS_ORIGIN : String
  REQUEST_TIMEOUT : Option Nat
deriving DecidableEq, Repr

/-- Loading config/environment.ts under an environment env. -/
def loadConfig (env : String → Option String) : GatewayConfig :=
  ⟨parseIntJS ((env "PORT").getD "3000"),
   (env "NODE_ENV").getD "development",
   (env "JWT_SECRET").getD "your-super-secret-jwt-key-here-make-it-long-and-random",
   (env "AUTH_SERVICE_URL").getD "http://localhost:3001",
   (env "PROFILE_SERVICE_URL").getD "http://localhost:3002",
   (env "PROPERTY_SERVICE_URL").getD "http://localhost:3003",
   (env "DOCUMENT_SERVICE_URL").getD "http://localhost:3004",
   (env "TRANSACTION_SERVICE_URL").getD "http://localhost:3005",
   parseIntJS ((env "RATE_LIMIT_WINDOW").getD "900000"),
   parseIntJS ((env "RATE_LIMIT_MAX").getD "100"),
   (env "CORS_ORIGIN").getD "http://localhost:3000",
   parseIntJS ((env "REQUEST_TIMEOUT").getD "30000")⟩

/-- A JS value held by a key of the config object. -/
inductive JsConfigValue where
  | num (n : Option Nat)
  | str (s : String)
deriving DecidableEq, Repr

/-- JS member access on the config object: the stored value for one of the
twelve keys the object was built with, undefined (none) for any other key.
In particular the key RATE_LIMIT, which middleware/rateLimit.ts reads, is
not among them. -/
def configMember (c : GatewayConfig) (key : String) : Option JsConfigValue :=
  if key = "PORT" then some (.num c.PORT)
  else if key = "NODE_ENV" then some (.str c.NODE_ENV)
  else if key = "JWT_SECRET" then some (.str c.JWT_SECRET)
  else if key = "AUTH_SERVICE_URL" then some (.str c.AUTH_SERVICE_URL)
  else if key = "PROFILE_SERVICE_URL" then some (.str c.PROFILE_SERVICE_URL)
  else if key = "PROPERTY_SERVICE_URL" then some (.str c.PROPERTY_SERVICE_URL)
  else if key = "DOCUMENT_SERVICE_URL" then some (.str c.DOCUMENT_SERVICE_URL)
  else if key = "TRANSACTION_SERVICE_URL" then some (.str c.TRANSACTION_SERVICE_URL)
  else if key = "RATE_LIMIT_WINDOW" then some (.num c.RATE_LIMIT_WINDOW)
  else if key = "RATE_LIMIT_MAX" then some (.num c.RATE_LIMIT_MAX)
  else if key = "CORS_ORIGIN" then some (.str c.CORS_ORIGIN)
  else if key = "REQUEST_TIMEOUT" then some (.num c.REQUEST_TIMEOUT)
  else none

/-- JS member access applied to a possibly-undefined value: reading a
property of undefined throws a TypeError; a number or string has no such
property, so the read yields undefined without throwing. -/
def memberOfValue (v : Option JsConfigValue) (key : String) :
    Except String (Option JsConfigValue) :=
  match v with
  | none => .error ("TypeError: cannot read " ++ key ++ " of undefined")
  | some _ => .ok none

/-- Module initialisation of middleware/rateLimit.ts: evaluating the
rateLimiter options reads config.RATE_LIMIT.WINDOW_MS and
config.RATE_LIMIT.MAX_REQUESTS before anything else can run. -/
def rateLimiterInit (c : GatewayConfig) :
    Except String (Option JsConfigValue × Option JsConfigValue) := do
  let w ← memberOfValue (configMember c "RATE_LIMIT") "WINDOW_MS"
  let m ← memberOfValue (configMember c "RATE_LIMIT") "MAX_REQUESTS"
  return (w, m)

/-- Claim C9 evaluated at its failing input: with no environment overrides
every recognized flat option does get its documented default - the
rate-limit window 900000 ms and ceiling 100 included - yet loading the
rate-limiter middleware still fails, because middleware/rateLimit.ts reads
the nested key RATE_LIMIT that config/environment.ts never defines, and a
member read on undefined throws. -/
theorem rateLimiter_default_config_fails :
    (loadConfig (fun _ => none)).RATE_LIMIT_WINDOW = some 900000 ∧
    (loadConfig (fun _ => none)).RATE_LIMIT_MAX = some 100 ∧
    (loadConfig (fun _ => none)).PORT = some 3000 ∧
    (loadConfig (fun _ => none)).REQUEST_TIMEOUT = some 30000 ∧
    configMember (loadConfig (fun _ => none)) "RATE_LIMIT" = none ∧
    rateLimiterInit (loadConfig (fun _ => none))
      = .error "TypeError: cannot read WINDOW_MS of undefined" := by
  refine ⟨by decide, by decide, by decide, by decide, rfl, rfl⟩
